import Mathlib

/-!
Verification development for the Bobo engine audio facade
(`bobo_engine/src/Bobo/Audio/AudioEngine.h`), an FMOD wrapper exposing
sound load / play / stop / 3D-position / query operations backed by three
string-keyed caches and a listener state.

The repository ships only the header: declarations, the inline
`GetInstance`, the constants `MAX_AUDIO_CHANNELS` and `DISTANCEFACTOR`,
and the member initializers of the listener vectors.  Method bodies and
`SoundInfo.h` are absent, so operation behaviour is modelled from the
spec where noted.  The external FMOD subsystem is modelled as an oracle
(`FMOD`) supplying result codes and channel-activity answers, and the
facade state carries observable traces of the external calls
(creation-call count, started channels, per-channel 3D positions).
-/

namespace Bobo

/-- 3D vector over ℚ, embedding `FMOD_VECTOR` (exact values suffice for
the constants appearing in the header). -/
structure Vec3 where
  x : ℚ
  y : ℚ
  z : ℚ
deriving DecidableEq, Repr

/-- Dot product, used to state perpendicularity of the listener vectors. -/
def dot (a b : Vec3) : ℚ :=
  a.x * b.x + a.y * b.y + a.z * b.z

/-- Modelled from the spec: `SoundInfo.h` is absent from the sources.
Per the spec's data model, a descriptor identifies a sound by a unique
string key, a file path, loop and 3D mode flags, a volume, and optional
3D coordinates. -/
structure SoundInfo where
  uniqueKey : String
  filePath : String
  isLoop : Bool
  is3D : Bool
  volume : ℚ
  posX : ℚ
  posY : ℚ
  posZ : ℚ
deriving DecidableEq, Repr

/-- Entries of the facade's diagnostic log: an FMOD error with its native
result code and source location, or the "not loaded" report of
`PlaySound`. -/
inductive LogEntry where
  | fmodError (code : Nat) (file : String) (line : Nat)
  | soundNotLoaded (key : String)
deriving DecidableEq, Repr

/-- Oracle for the external FMOD subsystem: the result code of each kind
of call (`0` = `FMOD_OK`) and whether a given channel handle is still
active.  The facade is verified for every oracle. -/
structure FMOD where
  createSoundResult : SoundInfo → Nat
  playResult : SoundInfo → Nat
  stopResult : Nat → Nat
  setPosResult : Nat → Nat
  updateResult : Nat
  initResult : Nat
  channelActive : Nat → Bool

/-- Association-list lookup (first match), embedding `std::map` lookup. -/
def alGet {α β : Type} [DecidableEq α] (k : α) : List (α × β) → Option β
  | [] => none
  | p :: t => if p.1 = k then some p.2 else alGet k t

/-- Association-list erase of all entries with the given key, embedding
`std::map::erase`. -/
def alErase {α β : Type} [DecidableEq α] (k : α) : List (α × β) → List (α × β)
  | [] => []
  | p :: t => if p.1 = k then alErase k t else p :: alErase k t

/-- Association-list insert-or-overwrite, embedding `std::map` insertion
under a fresh or existing key. -/
def alInsert {α β : Type} [DecidableEq α] (k : α) (v : β) (m : List (α × β)) :
    List (α × β) :=
  (k, v) :: alErase k m

/-- `AudioEngine::MAX_AUDIO_CHANNELS` from the header. -/
def MAX_AUDIO_CHANNELS : Nat := 1024

/-- `AudioEngine::DISTANCEFACTOR` from the header (units per meter). -/
def DISTANCEFACTOR : ℚ := 1

/-- State of the `AudioEngine` singleton: the three caches (`m_Sounds`,
`m_LoopsPlaying`, `m_SoundBanks`), the listener vectors, plus observable
traces of the external subsystem: its configured channel capacity and
distance factor, the per-channel 3D positions pushed to it, fresh-handle
counters, the number of sound-creation calls and of started channels,
and the diagnostic log. -/
structure AudioState where
  m_Sounds : List (String × Nat)
  m_LoopsPlaying : List (String × Nat)
  m_SoundBanks : List (String × Nat)
  m_ListenerPos : Vec3
  m_Forward : Vec3
  m_Up : Vec3
  sysChannelCapacity : Nat
  sysDistanceFactor : ℚ
  channelPos : List (Nat × Vec3)
  nextSound : Nat
  nextChannel : Nat
  createCalls : Nat
  channelsStarted : Nat
  log : List LogEntry
deriving DecidableEq, Repr

/-- The member-initializer state of `AudioEngine` from the header:
empty caches, listener at `{0, 0, -1.0f * DISTANCEFACTOR}`, forward
`{0, 0, 1}`, up `{0, 1, 0}`. -/
def defaultAudioState : AudioState where
  m_Sounds := []
  m_LoopsPlaying := []
  m_SoundBanks := []
  m_ListenerPos := ⟨0, 0, -1 * DISTANCEFACTOR⟩
  m_Forward := ⟨0, 0, 1⟩
  m_Up := ⟨0, 1, 0⟩
  sysChannelCapacity := 0
  sysDistanceFactor := 0
  channelPos := []
  nextSound := 0
  nextChannel := 0
  createCalls := 0
  channelsStarted := 0
  log := []

/-- `AudioEngine::GetInstance` from the header: a function-local static,
so every call yields the one instance (in its initial state here). -/
def GetInstance : Unit → AudioState :=
  fun _ => defaultAudioState

/-- Modelled from the spec: the body of `CheckForFMODError` is absent.
Every external call result is checked immediately; a non-`FMOD_OK`
result is logged with its native code and source location, and the call
returns normally with no other effect. -/
def CheckForFMODError (result : Nat) (file : String) (line : Nat)
    (s : AudioState) : AudioState :=
  if result = 0 then s
  else { s with log := LogEntry.fmodError result file line :: s.log }

/-- `AudioEngine::SoundLoaded`, modelled from the spec (body absent):
whether the descriptor's key is in the sound cache. -/
def SoundLoaded (s : AudioState) (info : SoundInfo) : Bool :=
  (alGet info.uniqueKey s.m_Sounds).isSome

/-- Modelled from the spec: the body of `AudioEngine::Init` is absent.
Constructs the external subsystem with channel capacity
`MAX_AUDIO_CHANNELS` and distance factor `DISTANCEFACTOR`; a failure is
reported via the error-check routine. -/
def Init (fmod : FMOD) (s : AudioState) : AudioState :=
  let s1 := CheckForFMODError fmod.initResult "AudioEngine.h" 54 s
  { s1 with sysChannelCapacity := MAX_AUDIO_CHANNELS
            sysDistanceFactor := DISTANCEFACTOR }

/-- Modelled from the spec: the body of `AudioEngine::Update` is absent.
Propagates to the external subsystem's per-frame update; any error is
reported, not surfaced. -/
def Update (fmod : FMOD) (s : AudioState) : AudioState :=
  CheckForFMODError fmod.updateResult "AudioEngine.h" 57 s

/-- Modelled from the spec: the body of `AudioEngine::LoadSound` is
absent.  If the key is already cached, no-op; otherwise requests sound
creation from the external subsystem (counted in `createCalls`), and on
success caches the handle under the key; on failure reports the error
and leaves the key absent. -/
def LoadSound (fmod : FMOD) (s : AudioState) (info : SoundInfo) : AudioState :=
  if SoundLoaded s info then s
  else
    let code := fmod.createSoundResult info
    let s1 := CheckForFMODError code "AudioEngine.h" 65
      { s with createCalls := s.createCalls + 1 }
    if code = 0 then
      { s1 with m_Sounds := alInsert info.uniqueKey s1.nextSound s1.m_Sounds
                nextSound := s1.nextSound + 1 }
    else s1

/-- Modelled from the spec: the body of `AudioEngine::Set3dChannelPosition`
is absent.  Pushes the descriptor's current 3D coordinates to the given
channel via the external subsystem's positional API; a failed update is
logged and does not change the subsystem's position state. -/
def Set3dChannelPosition (fmod : FMOD) (info : SoundInfo) (channel : Nat)
    (s : AudioState) : AudioState :=
  let code := fmod.setPosResult channel
  let s1 := CheckForFMODError code "AudioEngine.h" 141 s
  if code = 0 then
    { s1 with channelPos :=
        alInsert channel ⟨info.posX, info.posY, info.posZ⟩ s1.channelPos }
  else s1

/-- Modelled from the spec: the body of `AudioEngine::PlaySound` is
absent.  If the key is not cached, reports "not loaded" and performs no
playback.  Otherwise starts playback on a fresh channel from the
subsystem's pool (counted in `channelsStarted`), applies the initial 3D
position for 3D sounds, and, only when the descriptor loops, stores the
channel handle in `m_LoopsPlaying` under the key; one-shot sounds are
fire-and-forget. -/
def PlaySound (fmod : FMOD) (s : AudioState) (info : SoundInfo) : AudioState :=
  if SoundLoaded s info then
    let ch := s.nextChannel
    let s1 := CheckForFMODError (fmod.playResult info) "AudioEngine.h" 74
      { s with nextChannel := ch + 1
               channelsStarted := s.channelsStarted + 1 }
    let s2 := if info.is3D then Set3dChannelPosition fmod info ch s1 else s1
    if info.isLoop then
      { s2 with m_LoopsPlaying := alInsert info.uniqueKey ch s2.m_LoopsPlaying }
    else s2
  else { s with log := LogEntry.soundNotLoaded info.uniqueKey :: s.log }

/-- Modelled from the spec: the body of `AudioEngine::StopSound` is
absent.  Looks the key up in `m_LoopsPlaying`; if present, stops the
channel and removes the entry; if absent, no-op. -/
def StopSound (fmod : FMOD) (s : AudioState) (info : SoundInfo) : AudioState :=
  match alGet info.uniqueKey s.m_LoopsPlaying with
  | some ch =>
      let s1 := CheckForFMODError (fmod.stopResult ch) "AudioEngine.h" 77 s
      { s1 with m_LoopsPlaying := alErase info.uniqueKey s1.m_LoopsPlaying }
  | none => s

/-- Modelled from the spec: the body of `AudioEngine::Update3DSoundPosition`
is absent.  Looks up the active channel for the key; if present, pushes
the descriptor's current 3D coordinates to it; otherwise no-op. -/
def Update3DSoundPosition (fmod : FMOD) (s : AudioState) (info : SoundInfo) :
    AudioState :=
  match alGet info.uniqueKey s.m_LoopsPlaying with
  | some ch => Set3dChannelPosition fmod info ch s
  | none => s

/-- Modelled from the spec: the body of `AudioEngine::SoundIsPlaying` is
absent.  True only if the key has an entry in `m_LoopsPlaying` and the
external subsystem reports the channel as still active. -/
def SoundIsPlaying (fmod : FMOD) (s : AudioState) (info : SoundInfo) : Bool :=
  match alGet info.uniqueKey s.m_LoopsPlaying with
  | some ch => fmod.channelActive ch
  | none => false

/-- Modelled from the spec: the body of `AudioEngine::Set3DListenerPosition`
is absent.  Overwrites the listener state; perpendicularity of
forward/up is the caller's contract and is not enforced. -/
def Set3DListenerPosition (posX posY posZ fX fY fZ uX uY uZ : ℚ)
    (s : AudioState) : AudioState :=
  { s with m_ListenerPos := ⟨posX, posY, posZ⟩
           m_Forward := ⟨fX, fY, fZ⟩
           m_Up := ⟨uX, uY, uZ⟩ }

/-- One facade operation, for stating invariants over operation
sequences. -/
inductive Op where
  | load (info : SoundInfo)
  | play (info : SoundInfo)
  | stop (info : SoundInfo)
  | upd3D (info : SoundInfo)
  | tick
  | setListener (posX posY posZ fX fY fZ uX uY uZ : ℚ)
  | doInit
deriving Repr

/-- Run one operation of the facade. -/
def runOp (fmod : FMOD) (s : AudioState) : Op → AudioState
  | .load info => LoadSound fmod s info
  | .play info => PlaySound fmod s info
  | .stop info => StopSound fmod s info
  | .upd3D info => Update3DSoundPosition fmod s info
  | .tick => Update fmod s
  | .setListener a b c d e f g h i => Set3DListenerPosition a b c d e f g h i s
  | .doInit => Init fmod s

/-- Run a sequence of operations of the facade. -/
def run (fmod : FMOD) (s : AudioState) : List Op → AudioState
  | [] => s
  | op :: rest => run fmod (runOp fmod s op) rest

/-- The descriptor an operation carries, if any. -/
def opInfo : Op → Option SoundInfo
  | .load info => some info
  | .play info => some info
  | .stop info => some info
  | .upd3D info => some info
  | _ => none

/-- The active-loop table holds only keys classified as looping by `kf`. -/
def LoopInv (kf : String → Bool) (s : AudioState) : Prop :=
  ∀ p ∈ s.m_LoopsPlaying, kf p.1 = true

/-- The operation's descriptor (if any) has its loop flag consistent with
the key classification `kf` (keys determine loop mode, as assumed by the
key-indexed caches). -/
def OpConsistent (kf : String → Bool) (op : Op) : Prop :=
  ∀ info, opInfo op = some info → info.isLoop = kf info.uniqueKey

/-- A concrete oracle whose calls all succeed and whose channels are all
active, used to evaluate the theorems on concrete inputs. -/
def okFMOD : FMOD where
  createSoundResult := fun _ => 0
  playResult := fun _ => 0
  stopResult := fun _ => 0
  setPosResult := fun _ => 0
  updateResult := 0
  initResult := 0
  channelActive := fun _ => true

/-- A concrete oracle that reports every channel as finished. -/
def staleFMOD : FMOD :=
  { okFMOD with channelActive := fun _ => false }

/-- A concrete looping 3D descriptor. -/
def boomInfo : SoundInfo :=
  ⟨"boom", "boom.wav", true, true, 1, 2, 3, 4⟩

section AssocLemmas

variable {α β : Type} [DecidableEq α]

theorem alGet_insert_self (k : α) (v : β) (m : List (α × β)) :
    alGet k (alInsert k v m) = some v := by
  simp [alInsert, alGet]

theorem alGet_erase_self (k : α) (m : List (α × β)) :
    alGet k (alErase k m) = none := by
  induction m with
  | nil => rfl
  | cons p t ih =>
      by_cases h : p.1 = k
      · simpa [alErase, h]
      · simp [alErase, alGet, h, ih]

theorem mem_of_mem_alErase {k : α} {m : List (α × β)} {p : α × β}
    (h : p ∈ alErase k m) : p ∈ m := by
  induction m with
  | nil => simp [alErase] at h
  | cons q t ih =>
      by_cases hq : q.1 = k
      · simp only [alErase, if_pos hq] at h
        exact List.mem_cons_of_mem _ (ih h)
      · simp only [alErase, if_neg hq, List.mem_cons] at h
        rcases h with h | h
        · exact h ▸ List.mem_cons_self _ _
        · exact List.mem_cons_of_mem _ (ih h)

theorem eq_or_mem_of_mem_alInsert {k : α} {v : β} {m : List (α × β)}
    {p : α × β} (h : p ∈ alInsert k v m) : p = (k, v) ∨ p ∈ m := by
  rcases List.mem_cons.mp h with h | h
  · exact Or.inl h
  · exact Or.inr (mem_of_mem_alErase h)

end AssocLemmas

section StateLemmas

@[simp]
theorem check_m_Sounds (c : Nat) (f : String) (l : Nat) (s : AudioState) :
    (CheckForFMODError c f l s).m_Sounds = s.m_Sounds := by
  unfold CheckForFMODError; split <;> rfl

@[simp]
theorem check_m_LoopsPlaying (c : Nat) (f : String) (l : Nat) (s : AudioState) :
    (CheckForFMODError c f l s).m_LoopsPlaying = s.m_LoopsPlaying := by
  unfold CheckForFMODError; split <;> rfl

@[simp]
theorem check_m_SoundBanks (c : Nat) (f : String) (l : Nat) (s : AudioState) :
    (CheckForFMODError c f l s).m_SoundBanks = s.m_SoundBanks := by
  unfold CheckForFMODError; split <;> rfl

@[simp]
theorem check_channelPos (c : Nat) (f : String) (l : Nat) (s : AudioState) :
    (CheckForFMODError c f l s).channelPos = s.channelPos := by
  unfold CheckForFMODError; split <;> rfl

@[simp]
theorem check_nextSound (c : Nat) (f : String) (l : Nat) (s : AudioState) :
    (CheckForFMODError c f l s).nextSound = s.nextSound := by
  unfold CheckForFMODError; split <;> rfl

@[simp]
theorem check_nextChannel (c : Nat) (f : String) (l : Nat) (s : AudioState) :
    (CheckForFMODError c f l s).nextChannel = s.nextChannel := by
  unfold CheckForFMODError; split <;> rfl

@[simp]
theorem check_createCalls (c : Nat) (f : String) (l : Nat) (s : AudioState) :
    (CheckForFMODError c f l s).createCalls = s.createCalls := by
  unfold CheckForFMODError; split <;> rfl

@[simp]
theorem check_channelsStarted (c : Nat) (f : String) (l : Nat) (s : AudioState) :
    (CheckForFMODError c f l s).channelsStarted = s.channelsStarted := by
  unfold CheckForFMODError; split <;> rfl

theorem check_log_suffix (c : Nat) (f : String) (l : Nat) (s : AudioState) :
    List.IsSuffix s.log (CheckForFMODError c f l s).log := by
  unfold CheckForFMODError; split
  · exact List.suffix_refl _
  · exact List.suffix_cons _ _

theorem set3d_m_LoopsPlaying (fmod : FMOD) (info : SoundInfo) (ch : Nat)
    (s : AudioState) :
    (Set3dChannelPosition fmod info ch s).m_LoopsPlaying = s.m_LoopsPlaying := by
  by_cases h : fmod.setPosResult ch = 0 <;> simp [Set3dChannelPosition, h]

theorem set3d_log_suffix (fmod : FMOD) (info : SoundInfo) (ch : Nat)
    (s : AudioState) :
    List.IsSuffix s.log (Set3dChannelPosition fmod info ch s).log := by
  by_cases h : fmod.setPosResult ch = 0 <;>
    simp [Set3dChannelPosition, CheckForFMODError, h]

theorem LoadSound_m_LoopsPlaying (fmod : FMOD) (s : AudioState)
    (info : SoundInfo) :
    (LoadSound fmod s info).m_LoopsPlaying = s.m_LoopsPlaying := by
  by_cases hl : SoundLoaded s info = true
  · simp [LoadSound, hl]
  · by_cases hc : fmod.createSoundResult info = 0 <;>
      simp [LoadSound, hl, hc]

theorem PlaySound_loops_of_loop (fmod : FMOD) (s : AudioState)
    (info : SoundInfo) (hl : SoundLoaded s info = true)
    (hloop : info.isLoop = true) :
    (PlaySound fmod s info).m_LoopsPlaying =
      alInsert info.uniqueKey s.nextChannel s.m_LoopsPlaying := by
  by_cases h3 : info.is3D = true <;>
    simp [PlaySound, hl, hloop, h3, set3d_m_LoopsPlaying]

theorem PlaySound_loops_of_not_loop (fmod : FMOD) (s : AudioState)
    (info : SoundInfo) (hloop : info.isLoop = false) :
    (PlaySound fmod s info).m_LoopsPlaying = s.m_LoopsPlaying := by
  by_cases hl : SoundLoaded s info = true
  · by_cases h3 : info.is3D = true <;>
      simp [PlaySound, hl, hloop, h3, set3d_m_LoopsPlaying]
  · simp [PlaySound, hl]

theorem StopSound_loops_subset (fmod : FMOD) (s : AudioState)
    (info : SoundInfo) {p : String × Nat}
    (h : p ∈ (StopSound fmod s info).m_LoopsPlaying) :
    p ∈ s.m_LoopsPlaying := by
  unfold StopSound at h
  split at h
  · simp only [check_m_LoopsPlaying] at h
    exact mem_of_mem_alErase h
  · exact h

theorem Update3D_m_LoopsPlaying (fmod : FMOD) (s : AudioState)
    (info : SoundInfo) :
    (Update3DSoundPosition fmod s info).m_LoopsPlaying = s.m_LoopsPlaying := by
  unfold Update3DSoundPosition
  split
  · exact set3d_m_LoopsPlaying _ _ _ _
  · rfl

theorem LoadSound_of_loaded (fmod : FMOD) (s : AudioState) (info : SoundInfo)
    (h : SoundLoaded s info = true) : LoadSound fmod s info = s := by
  simp [LoadSound, h]

theorem LoadSound_createCalls (fmod : FMOD) (s : AudioState) (info : SoundInfo)
    (h : SoundLoaded s info = false) :
    (LoadSound fmod s info).createCalls = s.createCalls + 1 := by
  by_cases hc : fmod.createSoundResult info = 0 <;> simp [LoadSound, h, hc]

theorem SoundLoaded_LoadSound (fmod : FMOD) (s : AudioState) (info : SoundInfo)
    (hc : fmod.createSoundResult info = 0) :
    SoundLoaded (LoadSound fmod s info) info = true := by
  by_cases hl : SoundLoaded s info = true
  · rw [LoadSound_of_loaded fmod s info hl]; exact hl
  · have hl' : (alGet info.uniqueKey s.m_Sounds).isSome = false := by
      rw [Bool.not_eq_true] at hl
      exact hl
    simp [LoadSound, SoundLoaded, hl', hc, alGet_insert_self]

end StateLemmas

theorem PlaySound_loops_of_not_loaded (fmod : FMOD) (s : AudioState)
    (info : SoundInfo) (hl : SoundLoaded s info = false) :
    (PlaySound fmod s info).m_LoopsPlaying = s.m_LoopsPlaying := by
  simp [PlaySound, hl]

theorem LoadSound_log_suffix (fmod : FMOD) (s : AudioState)
    (info : SoundInfo) : List.IsSuffix s.log (LoadSound fmod s info).log := by
  by_cases hl : SoundLoaded s info = true
  · rw [LoadSound_of_loaded fmod s info hl]
  · by_cases hc : fmod.createSoundResult info = 0 <;>
      simp [LoadSound, hl, hc, CheckForFMODError]

theorem PlaySound_log_suffix (fmod : FMOD) (s : AudioState)
    (info : SoundInfo) : List.IsSuffix s.log (PlaySound fmod s info).log := by
  by_cases hl : SoundLoaded s info = true
  · have h1 : List.IsSuffix s.log
        (CheckForFMODError (fmod.playResult info) "AudioEngine.h" 74
          { s with nextChannel := s.nextChannel + 1
                   channelsStarted := s.channelsStarted + 1 }).log :=
      check_log_suffix _ _ _
        { s with nextChannel := s.nextChannel + 1
                 channelsStarted := s.channelsStarted + 1 }
    by_cases h3 : info.is3D = true <;> by_cases hlp : info.isLoop = true <;>
      simp only [PlaySound, hl, h3, hlp, if_true, if_false] <;>
      first
        | exact h1
        | exact h1.trans (set3d_log_suffix _ _ _ _)
  · simp [PlaySound, hl]

theorem StopSound_log_suffix (fmod : FMOD) (s : AudioState)
    (info : SoundInfo) : List.IsSuffix s.log (StopSound fmod s info).log := by
  cases h : alGet info.uniqueKey s.m_LoopsPlaying with
  | none => simp [StopSound, h]
  | some ch =>
      simp only [StopSound, h]
      exact check_log_suffix _ _ _ _

theorem Update3D_log_suffix (fmod : FMOD) (s : AudioState)
    (info : SoundInfo) :
    List.IsSuffix s.log (Update3DSoundPosition fmod s info).log := by
  cases h : alGet info.uniqueKey s.m_LoopsPlaying with
  | none => simp [Update3DSoundPosition, h]
  | some ch =>
      simp only [Update3DSoundPosition, h]
      exact set3d_log_suffix _ _ _ _

theorem runOp_LoopInv (kf : String → Bool) (fmod : FMOD) (s : AudioState)
    (op : Op) (hc : OpConsistent kf op) (hi : LoopInv kf s) :
    LoopInv kf (runOp fmod s op) := by
  cases op with
  | load info =>
      intro p hp
      simp only [runOp, LoadSound_m_LoopsPlaying] at hp
      exact hi p hp
  | play info =>
      intro p hp
      simp only [runOp] at hp
      by_cases hlp : info.isLoop = true
      · by_cases hl : SoundLoaded s info = true
        · rw [PlaySound_loops_of_loop fmod s info hl hlp] at hp
          rcases eq_or_mem_of_mem_alInsert hp with h | h
          · rw [h]
            rw [← hc info rfl]
            exact hlp
          · exact hi p h
        · rw [PlaySound_loops_of_not_loaded fmod s info
              (Bool.not_eq_true _ ▸ hl)] at hp
          exact hi p hp
      · rw [PlaySound_loops_of_not_loop fmod s info
            (Bool.not_eq_true _ ▸ hlp)] at hp
        exact hi p hp
  | stop info =>
      intro p hp
      simp only [runOp] at hp
      exact hi p (StopSound_loops_subset fmod s info hp)
  | upd3D info =>
      intro p hp
      simp only [runOp, Update3D_m_LoopsPlaying] at hp
      exact hi p hp
  | tick =>
      intro p hp
      simp only [runOp, Update, check_m_LoopsPlaying] at hp
      exact hi p hp
  | setListener a b c d e f g h i =>
      intro p hp
      exact hi p hp
  | doInit =>
      intro p hp
      simp only [runOp, Init, check_m_LoopsPlaying] at hp
      exact hi p hp

theorem run_LoopInv (kf : String → Bool) (fmod : FMOD) (ops : List Op) :
    ∀ s : AudioState, (∀ op ∈ ops, OpConsistent kf op) → LoopInv kf s →
      LoopInv kf (run fmod s ops) := by
  induction ops with
  | nil => intro s _ hi; exact hi
  | cons op rest ih =>
      intro s hc hi
      exact ih _ (fun o ho => hc o (List.mem_cons_of_mem _ ho))
        (runOp_LoopInv kf fmod s op (hc op (List.mem_cons_self _ _)) hi)

/-- A concrete state whose active-loop table holds the key "boom" on
channel 5, used to evaluate the theorems on concrete inputs. -/
def loopingState : AudioState :=
  { defaultAudioState with m_LoopsPlaying := [("boom", 5)] }

/-- C1: for every sound descriptor, loading twice with the same key makes
exactly one sound-creation call to the external subsystem: a load whose
key is already cached is a no-op leaving the state unchanged, and after
a successful first load the second load changes nothing and the creation
counter has grown by exactly one. -/
theorem c1_load_idempotent (fmod : FMOD) (s : AudioState) (info : SoundInfo) :
    (SoundLoaded s info = true → LoadSound fmod s info = s) ∧
    (SoundLoaded s info = false → fmod.createSoundResult info = 0 →
      LoadSound fmod (LoadSound fmod s info) info = LoadSound fmod s info ∧
      (LoadSound fmod (LoadSound fmod s info) info).createCalls =
        s.createCalls + 1) := by
  refine ⟨LoadSound_of_loaded fmod s info, fun h hc => ?_⟩
  have hnoop :=
    LoadSound_of_loaded fmod (LoadSound fmod s info) info
      (SoundLoaded_LoadSound fmod s info hc)
  exact ⟨hnoop, by rw [hnoop]; exact LoadSound_createCalls fmod s info h⟩

/-- Witness for C1 at concrete inputs: the key "boom" is absent from the
initial state, creation succeeds, and loading twice equals loading once
with one creation call recorded. -/
theorem c1_load_idempotent_witness :
    SoundLoaded defaultAudioState boomInfo = false ∧
    okFMOD.createSoundResult boomInfo = 0 ∧
    (LoadSound okFMOD (LoadSound okFMOD defaultAudioState boomInfo) boomInfo =
        LoadSound okFMOD defaultAudioState boomInfo ∧
      (LoadSound okFMOD (LoadSound okFMOD defaultAudioState boomInfo)
            boomInfo).createCalls =
        defaultAudioState.createCalls + 1) :=
  ⟨rfl, rfl, (c1_load_idempotent okFMOD defaultAudioState boomInfo).2 rfl rfl⟩

/-- C2: playing a descriptor whose key was never loaded starts no channel
and modifies no cache; the only effect is the observable "not loaded"
log entry. -/
theorem c2_play_not_loaded (fmod : FMOD) (s : AudioState) (info : SoundInfo)
    (h : SoundLoaded s info = false) :
    PlaySound fmod s info =
      { s with log := LogEntry.soundNotLoaded info.uniqueKey :: s.log } := by
  simp [PlaySound, h]

/-- Witness for C2: playing "boom" on the fresh state only logs the "not
loaded" report. -/
theorem c2_play_not_loaded_witness :
    SoundLoaded defaultAudioState boomInfo = false ∧
    PlaySound okFMOD defaultAudioState boomInfo =
      { defaultAudioState with
          log := LogEntry.soundNotLoaded boomInfo.uniqueKey ::
            defaultAudioState.log } :=
  ⟨rfl, c2_play_not_loaded okFMOD defaultAudioState boomInfo rfl⟩

/-- C6: stopping a descriptor whose key has no entry in the active-loop
table is a no-op: the entire facade state (sound cache, active-loop
table, soundbank table, listener state and all traces) is unchanged and
no error arises. -/
theorem c6_stop_untracked_noop (fmod : FMOD) (s : AudioState)
    (info : SoundInfo) (h : alGet info.uniqueKey s.m_LoopsPlaying = none) :
    StopSound fmod s info = s := by
  simp [StopSound, h]

/-- Witness for C6: stopping "boom" on the fresh state changes nothing. -/
theorem c6_stop_untracked_noop_witness :
    alGet boomInfo.uniqueKey defaultAudioState.m_LoopsPlaying = none ∧
    StopSound okFMOD defaultAudioState boomInfo = defaultAudioState :=
  ⟨rfl, c6_stop_untracked_noop okFMOD defaultAudioState boomInfo rfl⟩

/-- C7: updating the 3D position of a key not tracked in the active-loop
table is a no-op; for a tracked key the descriptor's current coordinates
are pushed to that channel through the positional API, so the external
subsystem's position for the channel becomes the descriptor's
coordinates. -/
theorem c7_update3d_position (fmod : FMOD) (s : AudioState)
    (info : SoundInfo) :
    (alGet info.uniqueKey s.m_LoopsPlaying = none →
      Update3DSoundPosition fmod s info = s) ∧
    (∀ ch, alGet info.uniqueKey s.m_LoopsPlaying = some ch →
      fmod.setPosResult ch = 0 →
      (Update3DSoundPosition fmod s info).channelPos =
        alInsert ch ⟨info.posX, info.posY, info.posZ⟩ s.channelPos ∧
      alGet ch (Update3DSoundPosition fmod s info).channelPos =
        some ⟨info.posX, info.posY, info.posZ⟩) := by
  constructor
  · intro h; simp [Update3DSoundPosition, h]
  · intro ch h hok
    have hpos : (Update3DSoundPosition fmod s info).channelPos =
        alInsert ch ⟨info.posX, info.posY, info.posZ⟩ s.channelPos := by
      simp [Update3DSoundPosition, h, Set3dChannelPosition, hok]
    exact ⟨hpos, by rw [hpos]; exact alGet_insert_self _ _ _⟩

/-- Witness for C7: with "boom" tracked on channel 5, the update pushes
the descriptor's coordinates to channel 5. -/
theorem c7_update3d_position_witness :
    alGet boomInfo.uniqueKey loopingState.m_LoopsPlaying = some 5 ∧
    okFMOD.setPosResult 5 = 0 ∧
    ((Update3DSoundPosition okFMOD loopingState boomInfo).channelPos =
        alInsert 5 ⟨boomInfo.posX, boomInfo.posY, boomInfo.posZ⟩
          loopingState.channelPos ∧
      alGet 5 (Update3DSoundPosition okFMOD loopingState boomInfo).channelPos =
        some ⟨boomInfo.posX, boomInfo.posY, boomInfo.posZ⟩) :=
  ⟨rfl, rfl, (c7_update3d_position okFMOD loopingState boomInfo).2 5 rfl rfl⟩

/-- C8: the playing query is true exactly when the key has an entry in
the active-loop table and the external subsystem reports that channel as
active; in particular a stale entry whose channel has finished is
reported as not playing. -/
theorem c8_soundIsPlaying_active (fmod : FMOD) (s : AudioState)
    (info : SoundInfo) :
    (SoundIsPlaying fmod s info = true ↔
      ∃ ch, alGet info.uniqueKey s.m_LoopsPlaying = some ch ∧
        fmod.channelActive ch = true) ∧
    (∀ ch, alGet info.uniqueKey s.m_LoopsPlaying = some ch →
      fmod.channelActive ch = false → SoundIsPlaying fmod s info = false) := by
  constructor
  · cases hA : alGet info.uniqueKey s.m_LoopsPlaying with
    | none => simp [SoundIsPlaying, hA]
    | some ch => simp [SoundIsPlaying, hA]
  · intro ch h hact
    simp [SoundIsPlaying, h, hact]

/-- Witness for C8: "boom" is tracked on channel 5 but the channel has
finished, so the query reports not playing. -/
theorem c8_soundIsPlaying_active_witness :
    alGet boomInfo.uniqueKey loopingState.m_LoopsPlaying = some 5 ∧
    staleFMOD.channelActive 5 = false ∧
    SoundIsPlaying staleFMOD loopingState boomInfo = false :=
  ⟨rfl, rfl,
    (c8_soundIsPlaying_active staleFMOD loopingState boomInfo).2 5 rfl rfl⟩

/-- C9: initialization configures the external subsystem with channel
capacity exactly 1024 (`MAX_AUDIO_CHANNELS` in the header) and distance
factor exactly 1 (`DISTANCEFACTOR` in the header, one meter per game
unit). -/
theorem c9_init_configuration (fmod : FMOD) (s : AudioState) :
    MAX_AUDIO_CHANNELS = 1024 ∧ DISTANCEFACTOR = 1 ∧
    (Init fmod s).sysChannelCapacity = 1024 ∧
    (Init fmod s).sysDistanceFactor = 1 :=
  ⟨rfl, rfl, rfl, rfl⟩

/-- C3: for a loaded looping descriptor, immediately after a successful
play the playing query on the same descriptor is true, and after a
subsequent stop it is false. -/
theorem c3_play_stop_playing (fmod : FMOD) (s : AudioState)
    (info : SoundInfo) (hl : SoundLoaded s info = true)
    (hloop : info.isLoop = true) (_hplay : fmod.playResult info = 0)
    (hact : fmod.channelActive s.nextChannel = true) :
    SoundIsPlaying fmod (PlaySound fmod s info) info = true ∧
    SoundIsPlaying fmod (StopSound fmod (PlaySound fmod s info) info) info =
      false := by
  have hloops := PlaySound_loops_of_loop fmod s info hl hloop
  have hget : alGet info.uniqueKey (PlaySound fmod s info).m_LoopsPlaying =
      some s.nextChannel := by
    rw [hloops]
    exact alGet_insert_self _ _ _
  constructor
  · simp [SoundIsPlaying, hget, hact]
  · have hstop : (StopSound fmod (PlaySound fmod s info) info).m_LoopsPlaying =
        alErase info.uniqueKey (PlaySound fmod s info).m_LoopsPlaying := by
      simp [StopSound, hget]
    simp [SoundIsPlaying, hstop, alGet_erase_self]

/-- Witness for C3 on concrete inputs: load "boom" (a looping
descriptor), play it, observe it playing, stop it, observe it not
playing. -/
theorem c3_play_stop_playing_witness :
    SoundLoaded (LoadSound okFMOD defaultAudioState boomInfo) boomInfo =
      true ∧
    boomInfo.isLoop = true ∧
    okFMOD.playResult boomInfo = 0 ∧
    okFMOD.channelActive
      (LoadSound okFMOD defaultAudioState boomInfo).nextChannel = true ∧
    (SoundIsPlaying okFMOD
        (PlaySound okFMOD (LoadSound okFMOD defaultAudioState boomInfo)
          boomInfo) boomInfo = true ∧
      SoundIsPlaying okFMOD
        (StopSound okFMOD
          (PlaySound okFMOD (LoadSound okFMOD defaultAudioState boomInfo)
            boomInfo) boomInfo) boomInfo = false) :=
  ⟨rfl, rfl, rfl, rfl,
    c3_play_stop_playing okFMOD (LoadSound okFMOD defaultAudioState boomInfo)
      boomInfo rfl rfl rfl rfl⟩

/-- C4: the active-loop table tracks only looping sounds: a play of a
loaded looping descriptor inserts the fresh channel handle under its
key, a play of a one-shot descriptor leaves the table unchanged, and
over every operation sequence whose descriptors classify keys
consistently the table's keys all remain looping keys. -/
theorem c4_loop_table_only_loops :
    (∀ (fmod : FMOD) (s : AudioState) (info : SoundInfo),
      SoundLoaded s info = true → info.isLoop = true →
      alGet info.uniqueKey (PlaySound fmod s info).m_LoopsPlaying =
        some s.nextChannel) ∧
    (∀ (fmod : FMOD) (s : AudioState) (info : SoundInfo),
      info.isLoop = false →
      (PlaySound fmod s info).m_LoopsPlaying = s.m_LoopsPlaying) ∧
    (∀ (kf : String → Bool) (fmod : FMOD) (s : AudioState) (ops : List Op),
      (∀ op ∈ ops, OpConsistent kf op) → LoopInv kf s →
      LoopInv kf (run fmod s ops)) := by
  refine ⟨fun fmod s info hl hloop => ?_, PlaySound_loops_of_not_loop,
    fun kf fmod s ops hc hi => run_LoopInv kf fmod ops s hc hi⟩
  rw [PlaySound_loops_of_loop fmod s info hl hloop]
  exact alGet_insert_self _ _ _

/-- Witness for C4: after loading and playing the looping "boom" from
the fresh state, every key in the active-loop table is a looping key. -/
theorem c4_loop_table_only_loops_witness :
    LoopInv (fun _ => true)
      (run okFMOD defaultAudioState [Op.load boomInfo, Op.play boomInfo]) := by
  refine c4_loop_table_only_loops.2.2 (fun _ => true) okFMOD defaultAudioState
    [Op.load boomInfo, Op.play boomInfo] ?_ ?_
  · intro op hop info hinfo
    rcases List.mem_cons.mp hop with h | h
    · subst h
      cases hinfo
      rfl
    · rcases List.mem_cons.mp h with h2 | h2
      · subst h2
        cases hinfo
        rfl
      · exact absurd h2 (List.not_mem_nil op)
  · intro p hp
    exact absurd hp (List.not_mem_nil p)

/-- C5: failures of external calls are checked immediately by the
error-check routine, which records the native result code and the
source location in the log and leaves every other part of the facade
state untouched; and every facade operation returns normally, its only
log effect being to append entries (nothing is raised to the caller). -/
theorem c5_error_check_policy :
    (∀ (code : Nat) (file : String) (line : Nat) (s : AudioState),
      code ≠ 0 →
      CheckForFMODError code file line s =
        { s with log := LogEntry.fmodError code file line :: s.log }) ∧
    (∀ (fmod : FMOD) (s : AudioState) (op : Op),
      List.IsSuffix s.log (runOp fmod s op).log) := by
  constructor
  · intro code file line s h
    simp [CheckForFMODError, h]
  · intro fmod s op
    cases op with
    | load info => exact LoadSound_log_suffix fmod s info
    | play info => exact PlaySound_log_suffix fmod s info
    | stop info => exact StopSound_log_suffix fmod s info
    | upd3D info => exact Update3D_log_suffix fmod s info
    | tick => exact check_log_suffix _ _ _ _
    | setListener a b c d e f g h i => exact List.suffix_refl _
    | doInit => exact check_log_suffix _ _ _ _

/-- Witness for C5: a failing call with code 42 at a concrete location
appends exactly the corresponding log entry to the fresh state. -/
theorem c5_error_check_policy_witness :
    (42 : Nat) ≠ 0 ∧
    CheckForFMODError 42 "AudioEngine.h" 65 defaultAudioState =
      { defaultAudioState with
          log := LogEntry.fmodError 42 "AudioEngine.h" 65 ::
            defaultAudioState.log } :=
  ⟨by decide,
    c5_error_check_policy.1 42 "AudioEngine.h" 65 defaultAudioState
      (by decide)⟩

/-- C10: before any listener update the instance holds the header's
member-initializer values: position `(0, 0, -1)`, forward `(0, 0, 1)`,
up `(0, 1, 0)`; the forward/up pair is perpendicular, and every
`GetInstance` call yields the same single instance. -/
theorem c10_default_listener_state :
    (GetInstance ()).m_ListenerPos = ⟨0, 0, -1⟩ ∧
    (GetInstance ()).m_Forward = ⟨0, 0, 1⟩ ∧
    (GetInstance ()).m_Up = ⟨0, 1, 0⟩ ∧
    dot (GetInstance ()).m_Forward (GetInstance ()).m_Up = 0 ∧
    ∀ u v : Unit, GetInstance u = GetInstance v := by
  refine ⟨?_, rfl, rfl, ?_, fun u v => rfl⟩
  · show (⟨0, 0, -1 * DISTANCEFACTOR⟩ : Vec3) = ⟨0, 0, -1⟩
    simp [DISTANCEFACTOR]
  · show dot ⟨0, 0, 1⟩ ⟨0, 1, 0⟩ = 0
    simp [dot]

end Bobo
